import Mathlib

/-!
Shallow embedding of `src/main.py` (Kasparro multi-agent content generation
system): the product data model, the `LogicBlocks` content-transformation
functions, the parser / question-generator / comparison / renderer agents and
the pipeline orchestrator, together with theorems settling the spec claims.

Python dictionaries whose key set matters to a claim (the FAQ page) are
modelled as association lists over a JSON-like value type; all other
dictionaries with a fixed key set are modelled as Lean structures with the
same field names.  Python `int` is `Int`, Python sets of strings are modelled
by `dedup`ed filtered lists (set semantics: the claims about them are stated
membership-wise, never order-wise).
-/

/-- The `ProductModel` dataclass of `src/main.py`. -/
structure ProductModel where
  name : String
  concentration : String
  skin_types : List String
  ingredients : List String
  benefits : List String
  usage : String
  side_effects : String
  price : Int
deriving DecidableEq

/-- The `Question` dataclass: a categorized question/answer pair. -/
structure Question where
  category : String
  question : String
  answer : String
deriving DecidableEq

/-- Python `set(xs) & set(ys)` for lists of strings, as a deduplicated list
(one canonical order; claims about it are stated set-wise). -/
def pySetInter (xs ys : List String) : List String :=
  (xs.filter (fun x => x ∈ ys)).dedup

/-- Python `set(xs) - set(ys)` for lists of strings, as a deduplicated list. -/
def pySetDiff (xs ys : List String) : List String :=
  (xs.filter (fun x => x ∉ ys)).dedup

/-- Result dictionary of `LogicBlocks.compare_ingredients`. -/
structure IngredientsComparison where
  comparison_type : String
  common_ingredients : List String
  unique_to_product_a : List String
  unique_to_product_b : List String
deriving DecidableEq

/-- `LogicBlocks.compare_ingredients`: set-based ingredient comparison. -/
def LogicBlocks.compare_ingredients (product_a product_b : ProductModel) :
    IngredientsComparison :=
  { comparison_type := "ingredients"
    common_ingredients := pySetInter product_a.ingredients product_b.ingredients
    unique_to_product_a := pySetDiff product_a.ingredients product_b.ingredients
    unique_to_product_b := pySetDiff product_b.ingredients product_a.ingredients }

/-- Result dictionary of `LogicBlocks.compare_benefits`. -/
structure BenefitsComparison where
  comparison_type : String
  product_a_benefits : List String
  product_b_benefits : List String
  overlap : Nat
deriving DecidableEq

/-- `LogicBlocks.compare_benefits`: benefit lists plus overlap cardinality. -/
def LogicBlocks.compare_benefits (product_a product_b : ProductModel) :
    BenefitsComparison :=
  { comparison_type := "benefits"
    product_a_benefits := product_a.benefits
    product_b_benefits := product_b.benefits
    overlap := (pySetInter product_a.benefits product_b.benefits).length }

/-- Result dictionary of `LogicBlocks.compare_price`. -/
structure PriceComparison where
  comparison_type : String
  product_a_price : Int
  product_b_price : Int
  difference : Int
  cheaper_product : String
deriving DecidableEq

/-- `LogicBlocks.compare_price`: `diff = a.price - b.price`, cheaper product is
`a.name` when `diff < 0`, else `b.name`; difference is `abs(diff)`. -/
def LogicBlocks.compare_price (product_a product_b : ProductModel) :
    PriceComparison :=
  let diff : Int := product_a.price - product_b.price
  { comparison_type := "price"
    product_a_price := product_a.price
    product_b_price := product_b.price
    difference := |diff|
    cheaper_product := if diff < 0 then product_a.name else product_b.name }

/-- `LogicBlocks.generate_fictional_competitor`: a fixed competitor record
(independent of the input product). -/
def LogicBlocks.generate_fictional_competitor (_product : ProductModel) :
    ProductModel :=
  { name := "RadiantGlow Vitamin C Complex"
    concentration := "15% Vitamin C"
    skin_types := ["All Skin Types", "Sensitive"]
    ingredients := ["Vitamin C", "Vitamin E", "Ferulic Acid"]
    benefits := ["Anti-aging", "Brightening", "Antioxidant protection"]
    usage := "Apply 3-4 drops in the evening after cleansing"
    side_effects := "May cause slight redness initially"
    price := 899 }

/-- Python errors raised (or specified) around parsing.  `keyError k` models
Python's built-in `KeyError(k)` raised by `input_data[k]` on a missing key.
`missingFieldError` is modelled from the spec: spec sections 4.1/7 name a
`MissingFieldError` class, which `src/main.py` never defines; the constructor
exists only so the spec's claimed error can be compared with the one the code
raises. -/
inductive PyErr where
  | keyError (key : String)
  | missingFieldError (key : String)
deriving DecidableEq

/-- A raw product mapping restricted to the eight Record keys: each field is
present (`some`, with its well-typed value) or absent (`none`).  This is the
domain of the missing-field claims. -/
structure RawProductData where
  name : Option String
  concentration : Option String
  skin_types : Option (List String)
  ingredients : Option (List String)
  benefits : Option (List String)
  usage : Option String
  side_effects : Option String
  price : Option Int
deriving DecidableEq

/-- `input_data[k]`: yield the value, or raise `KeyError(k)` when absent. -/
def pyGetItem {α : Type} (v : Option α) (k : String) : Except PyErr α :=
  match v with
  | some x => Except.ok x
  | none => Except.error (PyErr.keyError k)

/-- `DataParserAgent.execute`: subscripts the raw mapping once per field, in
the keyword-argument order of the source, and builds a `ProductModel`.  The
first absent key raises `KeyError` for that key. -/
def DataParserAgent.execute (input_data : RawProductData) :
    Except PyErr ProductModel := do
  let name ← pyGetItem input_data.name "name"
  let concentration ← pyGetItem input_data.concentration "concentration"
  let skin_types ← pyGetItem input_data.skin_types "skin_types"
  let ingredients ← pyGetItem input_data.ingredients "ingredients"
  let benefits ← pyGetItem input_data.benefits "benefits"
  let usage ← pyGetItem input_data.usage "usage"
  let side_effects ← pyGetItem input_data.side_effects "side_effects"
  let price ← pyGetItem input_data.price "price"
  Except.ok { name := name, concentration := concentration,
              skin_types := skin_types, ingredients := ingredients,
              benefits := benefits, usage := usage,
              side_effects := side_effects, price := price }

/-- The keys among the eight Record keys that are absent from the raw mapping,
in the parser's evaluation order. -/
def RawProductData.absentKeys (d : RawProductData) : List String :=
  (if d.name = none then ["name"] else []) ++
  (if d.concentration = none then ["concentration"] else []) ++
  (if d.skin_types = none then ["skin_types"] else []) ++
  (if d.ingredients = none then ["ingredients"] else []) ++
  (if d.benefits = none then ["benefits"] else []) ++
  (if d.usage = none then ["usage"] else []) ++
  (if d.side_effects = none then ["side_effects"] else []) ++
  (if d.price = none then ["price"] else [])

/-- `QuestionGeneratorAgent.QUESTION_TEMPLATES`: the fixed catalog, in the
insertion (iteration) order of the Python dict. -/
def QuestionGeneratorAgent.QUESTION_TEMPLATES : List (String × List String) :=
  [("Informational",
    ["What is {product_name}?",
     "What makes {product_name} effective?",
     "What is the concentration of active ingredients in {product_name}?"]),
   ("Usage",
    ["How do I use {product_name}?",
     "When should I apply {product_name}?",
     "Can I use {product_name} with other products?",
     "How many drops of {product_name} should I use?"]),
   ("Safety",
    ["Are there any side effects of {product_name}?",
     "Is {product_name} safe for sensitive skin?",
     "What precautions should I take when using {product_name}?"]),
   ("Skin Type",
    ["Is {product_name} suitable for my skin type?",
     "Can oily skin use {product_name}?",
     "Is {product_name} good for combination skin?"]),
   ("Benefits",
    ["What are the main benefits of {product_name}?",
     "How long until I see results from {product_name}?",
     "Does {product_name} help with dark spots?"]),
   ("Purchase",
    ["How much does {product_name} cost?",
     "Where can I buy {product_name}?",
     "Is {product_name} worth the price?"]),
   ("Comparison",
    ["How does {product_name} compare to other vitamin C serums?",
     "What makes {product_name} different?",
     "Should I choose {product_name} or another serum?"])]

/-- `QuestionGeneratorAgent._generate_answer`: the category-to-answer table of
the source (an if-chain standing for the Python dict lookup with its
`.get` default). -/
def QuestionGeneratorAgent.generate_answer (category : String)
    (product : ProductModel) : String :=
  if category = "Informational" then
    product.name ++ " is a " ++ product.concentration ++
      " serum designed for " ++ String.intercalate ", " product.skin_types ++
      " skin types."
  else if category = "Usage" then
    product.usage
  else if category = "Safety" then
    "Possible side effects include: " ++ product.side_effects
  else if category = "Skin Type" then
    "Yes, " ++ product.name ++ " is suitable for " ++
      String.intercalate ", " product.skin_types ++ " skin types."
  else if category = "Benefits" then
    "Key benefits include: " ++ String.intercalate ", " product.benefits
  else if category = "Purchase" then
    "The price is ₹" ++ toString product.price
  else if category = "Comparison" then
    product.name ++ " features " ++
      String.intercalate ", " product.ingredients ++ " at " ++
      product.concentration ++ "."
  else
    "Based on product data: " ++ product.name

/-- Worker for `pyFormat`: substitute every occurrence of `pat` by `rep`,
left to right.  The fuel argument (instantiated with the template length, an
upper bound on the steps needed) keeps the recursion structural so that the
kernel can evaluate the function. -/
def pyFormatAux (pat rep : List Char) : Nat → List Char → List Char
  | _, [] => []
  | 0, cs => cs
  | fuel + 1, c :: cs =>
    if pat.isPrefixOf (c :: cs) then
      rep ++ pyFormatAux pat rep fuel ((c :: cs).drop pat.length)
    else
      c :: pyFormatAux pat rep fuel cs

/-- `template.format(product_name=value)`: substitute each occurrence of the
`{product_name}` replacement field of the template by the value. -/
def pyFormat (template fieldValue : String) : String :=
  ⟨pyFormatAux "{product_name}".data fieldValue.data template.data.length
    template.data⟩

/-- `QuestionGeneratorAgent.execute`: one question per (category, template)
pair of the catalog, in catalog order, then `questions[:20]`. -/
def QuestionGeneratorAgent.execute (input_data : ProductModel) :
    List Question :=
  (QuestionGeneratorAgent.QUESTION_TEMPLATES.flatMap
    (fun ct =>
      ct.2.map (fun template =>
        { category := ct.1
          question := pyFormat template input_data.name
          answer := QuestionGeneratorAgent.generate_answer ct.1 input_data }))
  ).take 20

/-- One iteration of the FAQ selection loop of
`TemplateRendererAgent._render_faq`: accept `q` when its category is not yet
used and fewer than `maxQuestions` questions are selected.  The state is the
`selected_questions` list paired with the `categories_used` collection (the
Python set, modelled as its insertion-order list). -/
def faqStep (maxQuestions : Nat) (state : List Question × List String)
    (q : Question) : List Question × List String :=
  if q.category ∉ state.2 ∧ state.1.length < maxQuestions then
    (state.1 ++ [q], state.2 ++ [q.category])
  else
    state

/-- The FAQ selection loop over the whole question sequence, from the empty
state. -/
def faqSelect (maxQuestions : Nat) (questions : List Question) :
    List Question × List String :=
  questions.foldl (faqStep maxQuestions) ([], [])

/-- JSON-like values, for the pages modelled as Python dicts. -/
inductive JValue where
  | s : String → JValue
  | n : Nat → JValue
  | arr : List JValue → JValue
  | obj : List (String × JValue) → JValue

/-- Lookup in an association-list dictionary. -/
def jlookup (fields : List (String × JValue)) (k : String) : Option JValue :=
  match fields with
  | [] => none
  | (k', v) :: rest => if k' = k then some v else jlookup rest k

/-- `Question.to_dict`. -/
def Question.to_dict (q : Question) : JValue :=
  JValue.obj [("category", JValue.s q.category),
              ("question", JValue.s q.question),
              ("answer", JValue.s q.answer)]

/-- `TemplateRendererAgent._render_faq`: select up to 5 category-diverse
questions and build the FAQ page dict.  The page is modelled as the
association list of the Python dict literal, in source order; the
`categories` entry is `list(categories_used)` (set-ordering claims about it
are stated membership-wise). -/
def TemplateRendererAgent.render_faq (product : ProductModel)
    (questions : List Question) : List (String × JValue) :=
  let selected_questions := (faqSelect 5 questions).1
  let categories_used := (faqSelect 5 questions).2
  [("page_type", JValue.s "faq"),
   ("product_name", JValue.s product.name),
   ("total_questions", JValue.n selected_questions.length),
   ("questions", JValue.arr (selected_questions.map Question.to_dict)),
   ("metadata", JValue.obj
     [("generated_from", JValue.s "product_data"),
      ("categories", JValue.arr (categories_used.map JValue.s))])]

/-- One item of the `extract_benefits` fragment. -/
structure BenefitItem where
  benefit : String
  emphasis : String
deriving DecidableEq

/-- Fragment of `LogicBlocks.extract_benefits`. -/
structure BenefitsFragment where
  section_type : String
  title : String
  items : List BenefitItem
deriving DecidableEq

/-- `LogicBlocks.extract_benefits`. -/
def LogicBlocks.extract_benefits (product : ProductModel) : BenefitsFragment :=
  { section_type := "benefits"
    title := "Key Benefits"
    items := product.benefits.map
      (fun benefit => { benefit := benefit, emphasis := "high" }) }

/-- Fragment of `LogicBlocks.generate_usage_instructions`. -/
structure UsageFragment where
  section_type : String
  title : String
  instructions : String
  frequency : String
  timing : String
  application_method : String
deriving DecidableEq

/-- `LogicBlocks.generate_usage_instructions`. -/
def LogicBlocks.generate_usage_instructions (product : ProductModel) :
    UsageFragment :=
  { section_type := "usage"
    title := "How to Use"
    instructions := product.usage
    frequency := "Daily"
    timing := "Morning"
    application_method := "Topical" }

/-- Fragment of `LogicBlocks.format_ingredients`.  `primary` is `Option`
because the source guards the index: `ingredients[0] if ingredients else
None`. -/
structure IngredientsFragment where
  section_type : String
  title : String
  primary : Option String
  all_ingredients : List String
  concentration : String
deriving DecidableEq

/-- `LogicBlocks.format_ingredients`: `head?` is the guarded first element of
the source (`product.ingredients[0] if product.ingredients else None`). -/
def LogicBlocks.format_ingredients (product : ProductModel) :
    IngredientsFragment :=
  { section_type := "ingredients"
    title := "Active Ingredients"
    primary := product.ingredients.head?
    all_ingredients := product.ingredients
    concentration := product.concentration }

/-- Fragment of `LogicBlocks.create_safety_content`. -/
structure SafetyFragment where
  section_type : String
  title : String
  side_effects : String
  severity : String
  recommendation : String
deriving DecidableEq

/-- `LogicBlocks.create_safety_content`. -/
def LogicBlocks.create_safety_content (product : ProductModel) :
    SafetyFragment :=
  { section_type := "safety"
    title := "Safety Information"
    side_effects := product.side_effects
    severity := "mild"
    recommendation := "Patch test recommended for sensitive skin" }

/-- Fragment of `LogicBlocks.format_price`. -/
structure PriceFragment where
  section_type : String
  amount : Int
  currency : String
  formatted : String
deriving DecidableEq

/-- `LogicBlocks.format_price`. -/
def LogicBlocks.format_price (product : ProductModel) : PriceFragment :=
  { section_type := "price"
    amount := product.price
    currency := "INR"
    formatted := "₹" ++ toString product.price }

/-- Fragment of `LogicBlocks.skin_type_matcher`. -/
structure SkinTypesFragment where
  section_type : String
  title : String
  types : List String
  recommendation : String
deriving DecidableEq

/-- `LogicBlocks.skin_type_matcher`. -/
def LogicBlocks.skin_type_matcher (product : ProductModel) :
    SkinTypesFragment :=
  { section_type := "skin_types"
    title := "Suitable For"
    types := product.skin_types
    recommendation :=
      "Ideal for " ++ String.intercalate " and " product.skin_types ++ " skin" }

/-- The data produced by `ComparisonAgent.execute`: both products and the
three comparison fragments (the `comparisons` sub-dict flattened into named
fields). -/
structure ComparisonData where
  product_a : ProductModel
  product_b : ProductModel
  ingredients : IngredientsComparison
  benefits : BenefitsComparison
  price : PriceComparison
deriving DecidableEq

/-- `ComparisonAgent.execute`: synthesize the fictional competitor and run the
three comparison logic blocks. -/
def ComparisonAgent.execute (input_data : ProductModel) : ComparisonData :=
  let competitor := LogicBlocks.generate_fictional_competitor input_data
  { product_a := input_data
    product_b := competitor
    ingredients := LogicBlocks.compare_ingredients input_data competitor
    benefits := LogicBlocks.compare_benefits input_data competitor
    price := LogicBlocks.compare_price input_data competitor }

/-- The serialized per-product block of the comparison page's `products`
entry. -/
structure SerializedProduct where
  name : String
  concentration : String
  price : Int
  ingredients : List String
  benefits : List String
deriving DecidableEq

/-- `SerializedProduct` from a `ProductModel`, as in
`TemplateRendererAgent._render_comparison`. -/
def SerializedProduct.ofProduct (p : ProductModel) : SerializedProduct :=
  { name := p.name
    concentration := p.concentration
    price := p.price
    ingredients := p.ingredients
    benefits := p.benefits }

/-- The `products` entry of the comparison page. -/
structure ComparisonProducts where
  product_a : SerializedProduct
  product_b : SerializedProduct
deriving DecidableEq

/-- The `comparison_matrix` entry of the comparison page. -/
structure ComparisonMatrix where
  ingredients : IngredientsComparison
  benefits : BenefitsComparison
  price : PriceComparison
deriving DecidableEq

/-- The `recommendation` entry of the comparison page. -/
structure Recommendation where
  summary : String
  best_for_budget : String
deriving DecidableEq

/-- The comparison page built by `TemplateRendererAgent._render_comparison`. -/
structure ComparisonPage where
  page_type : String
  products : ComparisonProducts
  comparison_matrix : ComparisonMatrix
  recommendation : Recommendation
deriving DecidableEq

/-- `TemplateRendererAgent._render_comparison`. -/
def TemplateRendererAgent.render_comparison (data : ComparisonData) :
    ComparisonPage :=
  let product_a := data.product_a
  let product_b := data.product_b
  { page_type := "comparison"
    products :=
      { product_a := SerializedProduct.ofProduct product_a
        product_b := SerializedProduct.ofProduct product_b }
    comparison_matrix :=
      { ingredients := data.ingredients
        benefits := data.benefits
        price := data.price }
    recommendation :=
      { summary :=
          product_a.name ++ " offers great value with " ++
            product_a.concentration ++ " while " ++ product_b.name ++
            " provides higher concentration at " ++ product_b.concentration
        best_for_budget := data.price.cheaper_product } }

/-- The `hero` entry of the product page. -/
structure HeroBlock where
  product_name : String
  tagline : String
deriving DecidableEq

/-- The `details` entry of the product page. -/
structure ProductDetails where
  benefits : BenefitsFragment
  ingredients : IngredientsFragment
  usage : UsageFragment
  skin_types : SkinTypesFragment
deriving DecidableEq

/-- The product page built by `TemplateRendererAgent._render_product`. -/
structure ProductPage where
  page_type : String
  hero : HeroBlock
  details : ProductDetails
  pricing : PriceFragment
  safety : SafetyFragment
deriving DecidableEq

/-- `TemplateRendererAgent._render_product`. -/
def TemplateRendererAgent.render_product (product : ProductModel) :
    ProductPage :=
  { page_type := "product"
    hero :=
      { product_name := product.name
        tagline :=
          "Professional " ++ product.concentration ++
            " serum for visible results" }
    details :=
      { benefits := LogicBlocks.extract_benefits product
        ingredients := LogicBlocks.format_ingredients product
        usage := LogicBlocks.generate_usage_instructions product
        skin_types := LogicBlocks.skin_type_matcher product }
    pricing := LogicBlocks.format_price product
    safety := LogicBlocks.create_safety_content product }

/-- The three pages returned by `WorkflowOrchestrator.execute_pipeline`. -/
structure Pages where
  faq : List (String × JValue)
  product : ProductPage
  comparison : ComparisonPage

/-- The pure part of the pipeline after parsing: generate questions, then
render the FAQ, product and comparison pages, exactly as the orchestrator
sequences the agents (the `ContentStrategyAgent` outputs are threaded to the
renderer in the source but read by none of the render functions, so they do
not appear in the page values). -/
def buildPages (product : ProductModel) : Pages :=
  let questions := QuestionGeneratorAgent.execute product
  { faq := TemplateRendererAgent.render_faq product questions
    product := TemplateRendererAgent.render_product product
    comparison :=
      TemplateRendererAgent.render_comparison (ComparisonAgent.execute product) }

/-- `WorkflowOrchestrator.execute_pipeline`: parse the raw mapping, then build
the three pages; a parse error aborts before any page is built. -/
def WorkflowOrchestrator.execute_pipeline (raw_product_data : RawProductData) :
    Except PyErr Pages :=
  (DataParserAgent.execute raw_product_data).map buildPages

/-- The concrete input record of `main()` (spec section 8), parsed. -/
def glowBoost : ProductModel :=
  { name := "GlowBoost Vitamin C Serum"
    concentration := "10% Vitamin C"
    skin_types := ["Oily", "Combination"]
    ingredients := ["Vitamin C", "Hyaluronic Acid"]
    benefits := ["Brightening", "Fades dark spots"]
    usage := "Apply 2–3 drops in the morning before sunscreen"
    side_effects := "Mild tingling for sensitive skin"
    price := 699 }

/-- The concrete raw input mapping of `main()`, all eight keys present. -/
def rawGlowBoost : RawProductData :=
  { name := some "GlowBoost Vitamin C Serum"
    concentration := some "10% Vitamin C"
    skin_types := some ["Oily", "Combination"]
    ingredients := some ["Vitamin C", "Hyaluronic Acid"]
    benefits := some ["Brightening", "Fades dark spots"]
    usage := some "Apply 2–3 drops in the morning before sunscreen"
    side_effects := some "Mild tingling for sensitive skin"
    price := some 699 }

/-- The raw input of `main()` with the `price` key omitted. -/
def rawGlowBoostNoPrice : RawProductData :=
  { rawGlowBoost with price := none }

/-- A minimal record used to exercise the equal-name edge of the price
comparison. -/
def productX : ProductModel :=
  { name := "X"
    concentration := "c"
    skin_types := []
    ingredients := []
    benefits := []
    usage := "u"
    side_effects := "s"
    price := 5 }

/-- The `main()` raw input with empty `ingredients` and `benefits` lists. -/
def rawEmptyLists : RawProductData :=
  { rawGlowBoost with ingredients := some [], benefits := some [] }

/-- The parsed form of `rawEmptyLists`. -/
def glowEmpty : ProductModel :=
  { glowBoost with ingredients := [], benefits := [] }

/-- Along the FAQ selection fold, the accumulated category collection stays
equal to the categories of the selected questions, in order. -/
lemma faqFold_snd_eq_map (m : Nat) (qs : List Question) :
    ∀ sel used, used = sel.map (fun q => q.category) →
      (qs.foldl (faqStep m) (sel, used)).2 =
        (qs.foldl (faqStep m) (sel, used)).1.map (fun q => q.category) := by
  induction qs with
  | nil =>
    intro sel used h
    simpa using h
  | cons q qs ih =>
    intro sel used h
    simp only [List.foldl_cons]
    by_cases hc : q.category ∉ used ∧ sel.length < m
    · rw [show faqStep m (sel, used) q = (sel ++ [q], used ++ [q.category]) from
        by simp [faqStep, hc]]
      exact ih _ _ (by simp [h])
    · rw [show faqStep m (sel, used) q = (sel, used) from by simp [faqStep, hc]]
      exact ih _ _ h

/-- The FAQ selection fold never introduces a duplicate category. -/
lemma faqFold_snd_nodup (m : Nat) (qs : List Question) :
    ∀ sel used, used.Nodup → (qs.foldl (faqStep m) (sel, used)).2.Nodup := by
  induction qs with
  | nil =>
    intro sel used h
    simpa using h
  | cons q qs ih =>
    intro sel used h
    simp only [List.foldl_cons]
    by_cases hc : q.category ∉ used ∧ sel.length < m
    · rw [show faqStep m (sel, used) q = (sel ++ [q], used ++ [q.category]) from
        by simp [faqStep, hc]]
      refine ih _ _ ?_
      simp [List.nodup_append, h, hc.1]
    · rw [show faqStep m (sel, used) q = (sel, used) from by simp [faqStep, hc]]
      exact ih _ _ h

/-- The FAQ selection fold keeps at most `max sel.length m` questions. -/
lemma faqFold_length_le (m : Nat) (qs : List Question) :
    ∀ sel used, (qs.foldl (faqStep m) (sel, used)).1.length ≤
      max sel.length m := by
  induction qs with
  | nil =>
    intro sel used
    simp
  | cons q qs ih =>
    intro sel used
    simp only [List.foldl_cons]
    by_cases hc : q.category ∉ used ∧ sel.length < m
    · rw [show faqStep m (sel, used) q = (sel ++ [q], used ++ [q.category]) from
        by simp [faqStep, hc]]
      have hlen := ih (sel ++ [q]) (used ++ [q.category])
      have h2 : sel.length + 1 ≤ m := hc.2
      simp only [List.length_append, List.length_singleton] at hlen
      calc (qs.foldl (faqStep m) (sel ++ [q], used ++ [q.category])).1.length
          ≤ max (sel.length + 1) m := hlen
        _ = m := max_eq_right h2
        _ ≤ max sel.length m := le_max_right _ _
    · rw [show faqStep m (sel, used) q = (sel, used) from by simp [faqStep, hc]]
      exact ih _ _

/-- Every category accumulated by the FAQ selection fold came from the initial
state or from some question of the sequence. -/
lemma faqFold_snd_subset (m : Nat) (qs : List Question) :
    ∀ sel used c, c ∈ (qs.foldl (faqStep m) (sel, used)).2 →
      c ∈ used ∨ c ∈ qs.map (fun q => q.category) := by
  induction qs with
  | nil =>
    intro sel used c h
    simp only [List.foldl_nil] at h
    exact Or.inl h
  | cons q qs ih =>
    intro sel used c h
    simp only [List.foldl_cons] at h
    by_cases hc : q.category ∉ used ∧ sel.length < m
    · rw [show faqStep m (sel, used) q = (sel ++ [q], used ++ [q.category]) from
        by simp [faqStep, hc]] at h
      rcases ih _ _ c h with h1 | h2
      · rcases List.mem_append.mp h1 with h3 | h4
        · exact Or.inl h3
        · simp only [List.mem_singleton] at h4
          subst h4
          simp
      · simp [h2]
    · rw [show faqStep m (sel, used) q = (sel, used) from by simp [faqStep, hc]] at h
      rcases ih _ _ c h with h1 | h2
      · exact Or.inl h1
      · simp [h2]

/-- A duplicate-free list whose members all belong to `m` is no longer than
`m.dedup`. -/
lemma nodup_length_le_dedup {l m : List String} (hl : l.Nodup)
    (hsub : ∀ x ∈ l, x ∈ m) : l.length ≤ m.dedup.length := by
  classical
  have h1 : l.toFinset.card = l.length := List.toFinset_card_of_nodup hl
  have h2 : l.toFinset ⊆ m.toFinset := by
    intro x hx
    rw [List.mem_toFinset] at hx ⊢
    exact hsub x hx
  have h3 := Finset.card_le_card h2
  rw [h1, List.card_toFinset] at h3
  exact h3

/-- Projection of `compare_price` to its `cheaper_product` entry. -/
lemma compare_price_cheaper (a b : ProductModel) :
    (LogicBlocks.compare_price a b).cheaper_product =
      if a.price - b.price < 0 then a.name else b.name := rfl

/-- C1 (counterexample): on the concrete `main()` input the pipeline runs, but
the Comparison page's common-ingredient set is `["Vitamin C"]` — the string
"Vitamin C" occurs in both fixed ingredient lists — not the empty list the
claim states. -/
theorem comparison_common_not_empty :
    WorkflowOrchestrator.execute_pipeline rawGlowBoost =
      Except.ok (buildPages glowBoost) ∧
    (buildPages glowBoost).comparison.comparison_matrix.ingredients.common_ingredients =
      ["Vitamin C"] ∧
    (["Vitamin C"] : List String) ≠ [] := ⟨rfl, rfl, by decide⟩

/-- C1 (amended): for the concrete `main()` input the pipeline's Comparison
page has `product_b.name = "RadiantGlow Vitamin C Complex"`, price difference
200, cheaper product `"GlowBoost Vitamin C Serum"`, and common-ingredient set
`["Vitamin C"]` (the one string shared by the two fixed lists). -/
theorem concrete_comparison_scenario :
    WorkflowOrchestrator.execute_pipeline rawGlowBoost =
      Except.ok (buildPages glowBoost) ∧
    (buildPages glowBoost).comparison.products.product_b.name =
      "RadiantGlow Vitamin C Complex" ∧
    (buildPages glowBoost).comparison.comparison_matrix.price.difference = 200 ∧
    (buildPages glowBoost).comparison.comparison_matrix.price.cheaper_product =
      "GlowBoost Vitamin C Serum" ∧
    (buildPages glowBoost).comparison.comparison_matrix.ingredients.common_ingredients =
      ["Vitamin C"] := ⟨rfl, rfl, by decide, rfl, rfl⟩

/-- C2 (counterexample): omitting `price` from the `main()` input makes the
pipeline abort with Python's built-in `KeyError("price")` — the source never
defines or raises the `MissingFieldError` class the claim names. -/
theorem missing_price_error_class :
    WorkflowOrchestrator.execute_pipeline rawGlowBoostNoPrice =
      Except.error (PyErr.keyError "price") ∧
    PyErr.keyError "price" ≠ PyErr.missingFieldError "price" :=
  ⟨rfl, by decide⟩

/-- C2 (amended): whenever at least one of the eight required fields is absent
from the raw mapping, the pipeline aborts with a `KeyError` naming an absent
key (the first one in the parser's field order), and no Page value is
produced. -/
theorem parse_missing_field_aborts (d : RawProductData)
    (h : d.absentKeys ≠ []) :
    ∃ k, k ∈ d.absentKeys ∧
      WorkflowOrchestrator.execute_pipeline d =
        Except.error (PyErr.keyError k) := by
  rcases d with ⟨n, c, st, i, b, u, se, p⟩
  cases n with
  | none => exact ⟨"name", by simp [RawProductData.absentKeys], rfl⟩
  | some vn =>
  cases c with
  | none => exact ⟨"concentration", by simp [RawProductData.absentKeys], rfl⟩
  | some vc =>
  cases st with
  | none => exact ⟨"skin_types", by simp [RawProductData.absentKeys], rfl⟩
  | some vst =>
  cases i with
  | none => exact ⟨"ingredients", by simp [RawProductData.absentKeys], rfl⟩
  | some vi =>
  cases b with
  | none => exact ⟨"benefits", by simp [RawProductData.absentKeys], rfl⟩
  | some vb =>
  cases u with
  | none => exact ⟨"usage", by simp [RawProductData.absentKeys], rfl⟩
  | some vu =>
  cases se with
  | none => exact ⟨"side_effects", by simp [RawProductData.absentKeys], rfl⟩
  | some vse =>
  cases p with
  | none => exact ⟨"price", by simp [RawProductData.absentKeys], rfl⟩
  | some vp => exact absurd (by simp [RawProductData.absentKeys]) h

/-- C2 (witness): the amended statement at the concrete input with `price`
omitted. -/
theorem parse_missing_field_aborts_witness :
    rawGlowBoostNoPrice.absentKeys ≠ [] ∧
    ∃ k, k ∈ rawGlowBoostNoPrice.absentKeys ∧
      WorkflowOrchestrator.execute_pipeline rawGlowBoostNoPrice =
        Except.error (PyErr.keyError k) :=
  ⟨by decide, parse_missing_field_aborts rawGlowBoostNoPrice (by decide)⟩

/-- C3 (counterexample): the generator's output for the `main()` product has
20 questions while the fixed catalog has 22 (category, template) pairs — the
`questions[:20]` slice truncates the catalog, so the output is not one
question per pair. -/
theorem question_catalog_truncated :
    (QuestionGeneratorAgent.execute glowBoost).length = 20 ∧
    (QuestionGeneratorAgent.QUESTION_TEMPLATES.flatMap
      (fun ct => ct.2)).length = 22 ∧
    (20 : Nat) ≠ 22 := ⟨rfl, rfl, by decide⟩

/-- C3 (amended): for every Record the generator emits one question per
(category, template) pair for the first 20 pairs in catalog order — the
22-pair catalog is truncated to exactly 20 questions — so the total count is
20 ≥ 15, and every question's category lies in the fixed closed set. -/
theorem question_generator_count_and_categories (p : ProductModel) :
    (QuestionGeneratorAgent.execute p).length = 20 ∧
    15 ≤ (QuestionGeneratorAgent.execute p).length ∧
    ∀ q ∈ QuestionGeneratorAgent.execute p,
      q.category ∈ ["Informational", "Usage", "Safety", "Skin Type",
        "Benefits", "Purchase", "Comparison"] := by
  have h20 : (QuestionGeneratorAgent.execute p).length = 20 := rfl
  have hmap : (QuestionGeneratorAgent.execute p).map (fun q => q.category) =
      ["Informational", "Informational", "Informational",
       "Usage", "Usage", "Usage", "Usage",
       "Safety", "Safety", "Safety",
       "Skin Type", "Skin Type", "Skin Type",
       "Benefits", "Benefits", "Benefits",
       "Purchase", "Purchase", "Purchase",
       "Comparison"] := rfl
  refine ⟨h20, by rw [h20]; decide, ?_⟩
  intro q hq
  have hqc : q.category ∈
      (QuestionGeneratorAgent.execute p).map (fun q => q.category) :=
    List.mem_map_of_mem _ hq
  rw [hmap] at hqc
  exact (by decide :
    ∀ x ∈ (["Informational", "Informational", "Informational",
      "Usage", "Usage", "Usage", "Usage",
      "Safety", "Safety", "Safety",
      "Skin Type", "Skin Type", "Skin Type",
      "Benefits", "Benefits", "Benefits",
      "Purchase", "Purchase", "Purchase",
      "Comparison"] : List String),
      x ∈ ["Informational", "Usage", "Safety", "Skin Type",
        "Benefits", "Purchase", "Comparison"]) q.category hqc

/-- C3 (witness): the amended statement evaluated at the `main()` product and
at its first generated question. -/
theorem question_generator_count_and_categories_witness :
    (QuestionGeneratorAgent.execute glowBoost).length = 20 ∧
    ({ category := "Informational",
       question := "What is GlowBoost Vitamin C Serum?",
       answer := "GlowBoost Vitamin C Serum is a 10% Vitamin C serum designed for Oily, Combination skin types." } : Question).category ∈
      ["Informational", "Usage", "Safety", "Skin Type",
       "Benefits", "Purchase", "Comparison"] :=
  ⟨(question_generator_count_and_categories glowBoost).1,
   (question_generator_count_and_categories glowBoost).2.2 _ (by decide)⟩

/-- C4 (counterexample): for the `main()` product, the generated Safety
questions answer with `"Possible side effects include: …"`, not the verbatim
`side_effects` field, and the Informational questions answer with
`"… is a … serum designed for … skin types."`, not the claimed
`"{name} contains {concentration} Vitamin C."`. -/
theorem safety_answer_not_verbatim :
    ((QuestionGeneratorAgent.execute glowBoost)[7]?).map
        (fun q => (q.category, q.answer)) =
      some ("Safety",
        "Possible side effects include: Mild tingling for sensitive skin") ∧
    some "Possible side effects include: Mild tingling for sensitive skin" ≠
      some glowBoost.side_effects ∧
    ((QuestionGeneratorAgent.execute glowBoost)[0]?).map
        (fun q => (q.category, q.answer)) =
      some ("Informational",
        "GlowBoost Vitamin C Serum is a 10% Vitamin C serum designed for Oily, Combination skin types.") ∧
    some "GlowBoost Vitamin C Serum is a 10% Vitamin C serum designed for Oily, Combination skin types." ≠
      some "GlowBoost Vitamin C Serum contains 10% Vitamin C Vitamin C." :=
  ⟨rfl, by decide, rfl, by decide⟩

/-- C4 (amended): every generated question's answer is the value of the
source's category → answer table at its category; in particular Safety
questions answer `"Possible side effects include: " ++ side_effects` and
Informational questions answer
`"{name} is a {concentration} serum designed for {skin_types} skin types."`. -/
theorem answer_derivation_table (p : ProductModel) :
    ∀ q ∈ QuestionGeneratorAgent.execute p,
      q.answer = QuestionGeneratorAgent.generate_answer q.category p ∧
      (q.category = "Safety" →
        q.answer = "Possible side effects include: " ++ p.side_effects) ∧
      (q.category = "Informational" →
        q.answer = p.name ++ " is a " ++ p.concentration ++
          " serum designed for " ++
          String.intercalate ", " p.skin_types ++ " skin types.") := by
  intro q hq
  have hq' : q ∈ QuestionGeneratorAgent.QUESTION_TEMPLATES.flatMap
      (fun ct => ct.2.map (fun template =>
        ({ category := ct.1,
           question := pyFormat template p.name,
           answer := QuestionGeneratorAgent.generate_answer ct.1 p } :
          Question))) :=
    List.take_subset _ _ hq
  rw [List.mem_flatMap] at hq'
  obtain ⟨ct, hct, hqm⟩ := hq'
  rw [List.mem_map] at hqm
  obtain ⟨template, htp, hqe⟩ := hqm
  subst hqe
  refine ⟨rfl, fun hs => ?_, fun hi => ?_⟩
  · show QuestionGeneratorAgent.generate_answer ct.1 p = _
    have hcat : ct.1 = "Safety" := hs
    rw [hcat]
    rfl
  · show QuestionGeneratorAgent.generate_answer ct.1 p = _
    have hcat : ct.1 = "Informational" := hi
    rw [hcat]
    rfl

/-- C4 (witness): the amended statement at the `main()` product and its first
Safety question. -/
theorem answer_derivation_table_witness :
    ({ category := "Safety",
       question := "Are there any side effects of GlowBoost Vitamin C Serum?",
       answer := "Possible side effects include: Mild tingling for sensitive skin" } :
      Question).answer =
      "Possible side effects include: " ++ glowBoost.side_effects :=
  (answer_derivation_table glowBoost
    { category := "Safety",
      question := "Are there any side effects of GlowBoost Vitamin C Serum?",
      answer := "Possible side effects include: Mild tingling for sensitive skin" }
    (by decide)).2.1 rfl

/-- C5 (confirmed): the FAQ renderer's displayed questions are exactly the
result of folding the generator-order sequence through the accept-if-category-
unused-and-fewer-than-5 step (`faqSelect 5`, the loop of `_render_faq`); the
displayed set has size at most `min 5 (number of distinct categories)` and
contains no two questions with the same category. -/
theorem faq_selection_one_per_category (product : ProductModel)
    (questions : List Question) :
    jlookup (TemplateRendererAgent.render_faq product questions) "questions" =
      some (JValue.arr ((faqSelect 5 questions).1.map Question.to_dict)) ∧
    (faqSelect 5 questions).1.length ≤
      min 5 ((questions.map (fun q => q.category)).dedup.length) ∧
    ((faqSelect 5 questions).1.map (fun q => q.category)).Nodup := by
  have hmap : (faqSelect 5 questions).2 =
      (faqSelect 5 questions).1.map (fun q => q.category) :=
    faqFold_snd_eq_map 5 questions [] [] rfl
  have hnodup : (faqSelect 5 questions).2.Nodup :=
    faqFold_snd_nodup 5 questions [] [] (by simp)
  have hsub : ∀ c ∈ (faqSelect 5 questions).2,
      c ∈ questions.map (fun q => q.category) := by
    intro c hc
    rcases faqFold_snd_subset 5 questions [] [] c hc with h | h
    · simp at h
    · exact h
  refine ⟨rfl, ?_, hmap ▸ hnodup⟩
  have hlen1 : (faqSelect 5 questions).1.length ≤ 5 := by
    have h := faqFold_length_le 5 questions [] []
    simpa [faqSelect] using h
  have hlen2 : (faqSelect 5 questions).1.length ≤
      (questions.map (fun q => q.category)).dedup.length := by
    have h := nodup_length_le_dedup hnodup hsub
    rw [hmap, List.length_map] at h
    exact h
  exact le_min hlen1 hlen2

/-- C10 (confirmed): the FAQ page is internally consistent — its
`total_questions` entry equals the length of its `questions` entry, and its
`metadata.categories` entry holds exactly the categories of the displayed
questions, without duplicates. -/
theorem faq_page_internally_consistent (product : ProductModel)
    (questions : List Question) :
    jlookup (TemplateRendererAgent.render_faq product questions)
        "total_questions" =
      some (JValue.n (faqSelect 5 questions).1.length) ∧
    jlookup (TemplateRendererAgent.render_faq product questions) "questions" =
      some (JValue.arr ((faqSelect 5 questions).1.map Question.to_dict)) ∧
    ((faqSelect 5 questions).1.map Question.to_dict).length =
      (faqSelect 5 questions).1.length ∧
    jlookup (TemplateRendererAgent.render_faq product questions) "metadata" =
      some (JValue.obj
        [("generated_from", JValue.s "product_data"),
         ("categories", JValue.arr ((faqSelect 5 questions).2.map JValue.s))]) ∧
    (∀ c, c ∈ (faqSelect 5 questions).2 ↔
      c ∈ (faqSelect 5 questions).1.map (fun q => q.category)) ∧
    (faqSelect 5 questions).2.Nodup := by
  have hmap : (faqSelect 5 questions).2 =
      (faqSelect 5 questions).1.map (fun q => q.category) :=
    faqFold_snd_eq_map 5 questions [] [] rfl
  have hnodup : (faqSelect 5 questions).2.Nodup :=
    faqFold_snd_nodup 5 questions [] [] (by simp)
  exact ⟨rfl, rfl, by simp, rfl, fun c => by rw [hmap], hnodup⟩

/-- C6 (counterexample): for the concrete `main()` input, the rendered FAQ
page has no `total_questions_generated` entry at all (so it cannot equal the
full catalog size); the only count entry is `total_questions`, holding the
displayed-set size 5. -/
theorem faq_page_no_generated_count :
    jlookup (buildPages glowBoost).faq "total_questions_generated" = none ∧
    jlookup (buildPages glowBoost).faq "total_questions" =
      some (JValue.n 5) := ⟨rfl, rfl⟩

/-- C6 (amended): the rendered FAQ page carries a single count field,
`total_questions`, equal to the selected-set size (there is no
`total_questions_generated` field), plus the selected questions in selection
order. -/
theorem faq_page_counts (product : ProductModel) (questions : List Question) :
    jlookup (TemplateRendererAgent.render_faq product questions)
        "total_questions_generated" = none ∧
    jlookup (TemplateRendererAgent.render_faq product questions)
        "total_questions" = some (JValue.n (faqSelect 5 questions).1.length) ∧
    jlookup (TemplateRendererAgent.render_faq product questions) "questions" =
      some (JValue.arr ((faqSelect 5 questions).1.map Question.to_dict)) :=
  ⟨rfl, rfl, rfl⟩

/-- C7 (confirmed): partition law of `compare_ingredients` — the common
ingredients together with the ingredients unique to one side are, as a set,
exactly that side's ingredient list. -/
theorem compare_ingredients_partition (a b : ProductModel) :
    (∀ x, (x ∈ (LogicBlocks.compare_ingredients a b).common_ingredients ∨
           x ∈ (LogicBlocks.compare_ingredients a b).unique_to_product_a) ↔
          x ∈ a.ingredients) ∧
    (∀ x, (x ∈ (LogicBlocks.compare_ingredients a b).common_ingredients ∨
           x ∈ (LogicBlocks.compare_ingredients a b).unique_to_product_b) ↔
          x ∈ b.ingredients) := by
  constructor
  · intro x
    simp only [LogicBlocks.compare_ingredients, pySetInter, pySetDiff,
      List.mem_dedup, List.mem_filter, decide_eq_true_eq]
    by_cases hb : x ∈ b.ingredients <;> tauto
  · intro x
    simp only [LogicBlocks.compare_ingredients, pySetInter, pySetDiff,
      List.mem_dedup, List.mem_filter, decide_eq_true_eq]
    by_cases ha : x ∈ a.ingredients <;> tauto

/-- C8 (counterexample): the stated biconditional fails when the two records
carry the same name — for the pair `(productX, productX)` the reported
cheaper product equals `productX.name` (it is `b.name`, the tie-break side)
although the first price is not strictly lower; both names are also
simultaneously "reported" there. -/
theorem price_comparison_equal_names :
    (LogicBlocks.compare_price productX productX).cheaper_product =
      productX.name ∧
    ¬(productX.price < productX.price) := ⟨rfl, by decide⟩

/-- C8 (amended): for records with distinct names, the cheaper product is the
first one's name iff its price is strictly lower; on equal prices the second
name is always reported, and never both names. -/
theorem price_comparison_antisymmetric (a b : ProductModel)
    (h : a.name ≠ b.name) :
    ((LogicBlocks.compare_price a b).cheaper_product = a.name ↔
      a.price < b.price) ∧
    (a.price = b.price →
      (LogicBlocks.compare_price a b).cheaper_product = b.name) ∧
    ¬((LogicBlocks.compare_price a b).cheaper_product = a.name ∧
      (LogicBlocks.compare_price a b).cheaper_product = b.name) := by
  simp only [compare_price_cheaper]
  by_cases hlt : a.price - b.price < 0
  · rw [if_pos hlt]
    refine ⟨⟨fun _ => by omega, fun _ => rfl⟩, fun he => ?_, fun hb => ?_⟩
    · exfalso
      omega
    · exact h (hb.1.symm.trans hb.2)
  · rw [if_neg hlt]
    refine ⟨⟨fun hn => absurd hn.symm h, fun hp => ?_⟩, fun _ => rfl,
      fun hb => h hb.1.symm⟩
    exfalso
    omega

/-- C8 (witness): the amended antisymmetry facts at the `main()` product and
its fictional competitor, whose names differ. -/
theorem price_comparison_antisymmetric_witness :
    glowBoost.name ≠ (LogicBlocks.generate_fictional_competitor glowBoost).name ∧
    (((LogicBlocks.compare_price glowBoost
        (LogicBlocks.generate_fictional_competitor glowBoost)).cheaper_product =
      glowBoost.name) ↔
      glowBoost.price <
        (LogicBlocks.generate_fictional_competitor glowBoost).price) ∧
    (glowBoost.price = (LogicBlocks.generate_fictional_competitor glowBoost).price →
      (LogicBlocks.compare_price glowBoost
        (LogicBlocks.generate_fictional_competitor glowBoost)).cheaper_product =
      (LogicBlocks.generate_fictional_competitor glowBoost).name) ∧
    ¬((LogicBlocks.compare_price glowBoost
        (LogicBlocks.generate_fictional_competitor glowBoost)).cheaper_product =
        glowBoost.name ∧
      (LogicBlocks.compare_price glowBoost
        (LogicBlocks.generate_fictional_competitor glowBoost)).cheaper_product =
      (LogicBlocks.generate_fictional_competitor glowBoost).name) :=
  ⟨by decide,
   price_comparison_antisymmetric glowBoost
     (LogicBlocks.generate_fictional_competitor glowBoost) (by decide)⟩

/-- C9 (confirmed): once a Record with empty `ingredients` and `benefits`
parses, the whole pipeline completes without error: the three pages are
built, the ingredients block's `primary` entry is `None` (the source guards
the index) rather than an out-of-bounds access, the benefits items and the
ingredient-comparison lists on the product side are empty, and the benefits
overlap is 0. -/
theorem empty_lists_degrade_gracefully (d : RawProductData) (p : ProductModel)
    (hp : DataParserAgent.execute d = Except.ok p)
    (hing : p.ingredients = []) (hben : p.benefits = []) :
    WorkflowOrchestrator.execute_pipeline d = Except.ok (buildPages p) ∧
    (buildPages p).product.details.ingredients.primary = none ∧
    (buildPages p).product.details.benefits.items = [] ∧
    (buildPages p).comparison.comparison_matrix.ingredients.common_ingredients = [] ∧
    (buildPages p).comparison.comparison_matrix.ingredients.unique_to_product_a = [] ∧
    (buildPages p).comparison.comparison_matrix.benefits.overlap = 0 ∧
    jlookup (buildPages p).faq "page_type" = some (JValue.s "faq") ∧
    (buildPages p).product.page_type = "product" ∧
    (buildPages p).comparison.page_type = "comparison" := by
  refine ⟨?_, ?_, ?_, ?_, ?_, ?_, rfl, rfl, rfl⟩
  · show (DataParserAgent.execute d).map buildPages = Except.ok (buildPages p)
    rw [hp]
    rfl
  · simp [buildPages, TemplateRendererAgent.render_product,
      LogicBlocks.format_ingredients, hing]
  · simp [buildPages, TemplateRendererAgent.render_product,
      LogicBlocks.extract_benefits, hben]
  · simp [buildPages, TemplateRendererAgent.render_comparison,
      ComparisonAgent.execute, LogicBlocks.compare_ingredients, pySetInter,
      hing]
  · simp [buildPages, TemplateRendererAgent.render_comparison,
      ComparisonAgent.execute, LogicBlocks.compare_ingredients, pySetDiff,
      hing]
  · simp [buildPages, TemplateRendererAgent.render_comparison,
      ComparisonAgent.execute, LogicBlocks.compare_benefits, pySetInter, hben]

/-- C9 (witness): the graceful-degradation facts at the concrete input with
both lists empty. -/
theorem empty_lists_degrade_gracefully_witness :
    WorkflowOrchestrator.execute_pipeline rawEmptyLists =
      Except.ok (buildPages glowEmpty) ∧
    (buildPages glowEmpty).product.details.ingredients.primary = none ∧
    (buildPages glowEmpty).product.details.benefits.items = [] ∧
    (buildPages glowEmpty).comparison.comparison_matrix.ingredients.common_ingredients = [] ∧
    (buildPages glowEmpty).comparison.comparison_matrix.ingredients.unique_to_product_a = [] ∧
    (buildPages glowEmpty).comparison.comparison_matrix.benefits.overlap = 0 ∧
    jlookup (buildPages glowEmpty).faq "page_type" = some (JValue.s "faq") ∧
    (buildPages glowEmpty).product.page_type = "product" ∧
    (buildPages glowEmpty).comparison.page_type = "comparison" :=
  empty_lists_degrade_gracefully rawEmptyLists glowEmpty rfl rfl rfl
